import Mathlib

/-!
# Verification of the wedding-website service worker (`src/js/modern/sw.js`)

A shallow embedding of the offline caching worker: the cache store
(named partitions of URL-keyed stored responses), the strategy selector,
the three caching strategies (network-first, cache-first,
stale-while-revalidate), the install/activate lifecycle handlers and the
deferred RSVP submission handler.  The network is modelled as a function
from URL to `Option Resp` (`none` = the fetch rejects); each strategy
returns the settled value of the promise handed to `respondWith`
(`Except.error` = the promise rejects, `Except.ok none` = it resolves
with `undefined`), the resulting cache-store state, and the list of URLs
the worker fetched.
-/

namespace SW

abbrev Url := String

/-- A stored response payload: status and opaque body
(`new Response('Offline', \x7b status: 503 \x7d)` etc.). -/
structure Resp where
  status : Nat
  body : String
deriving DecidableEq, Repr

/-- A request descriptor: method, URL and destination hint,
as read off `event.request` by the fetch listener. -/
structure Request where
  method : String
  url : Url
  destination : String
deriving DecidableEq, Repr

/-- One cache partition: an association list keyed by request URL. -/
abbrev Partition := List (Url × Resp)

/-- The cache store: named partitions in creation order
(`caches` in the worker). -/
abbrev CacheState := List (String × Partition)

/-- The network: `none` models a rejected `fetch`. -/
abbrev Net := Url → Option Resp

/- Constants from `sw.js` lines 8-21. -/

def STATIC_CACHE : String := "static-v1"

def DYNAMIC_CACHE : String := "dynamic-v1"

def STATIC_FILES : List Url :=
  ["/", "/index.html", "/css/styles.min.css", "/js/modern-scripts.js",
   "/img/logo.png", "/img/hero-placeholder.jpg", "/manifest.json"]

/- Cache Storage collaborator (the `caches` API as the worker uses it). -/

/-- `cache.match(url)` inside one partition: first entry with this key. -/
def partitionMatch (p : Partition) (u : Url) : Option Resp :=
  (p.find? (fun e => e.1 = u)).map (fun e => e.2)

/-- The partition registered under `name`, if any. -/
def getPartition (st : CacheState) (name : String) : Option Partition :=
  (st.find? (fun e => e.1 = name)).map (fun e => e.2)

/-- `caches.open(name)`: creates an empty partition when absent. -/
def openCache (st : CacheState) (name : String) : CacheState :=
  if (getPartition st name).isSome then st else st ++ [(name, [])]

/-- `cache.put(url, r)`: replace any entry for this key in the partition. -/
def putEntry (p : Partition) (u : Url) (r : Resp) : Partition :=
  (u, r) :: p.filter (fun e => ¬ e.1 = u)

/-- `caches.open(name)` then `cache.put(url, r)` applied to the store. -/
def cachePut (st : CacheState) (name : String) (u : Url) (r : Resp) : CacheState :=
  (openCache st name).map (fun e => if e.1 = name then (e.1, putEntry e.2 u r) else e)

/-- `caches.match(url)`: searches every partition in creation order. -/
def cachesMatch (st : CacheState) (u : Url) : Option Resp :=
  match st with
  | [] => none
  | (_, p) :: rest =>
    match partitionMatch p u with
    | some r => some r
    | none => cachesMatch rest u

/-- Lookup restricted to the dynamic partition (what
`caches.open(DYNAMIC_CACHE)` followed by `cache.match` sees). -/
def dynMatch (st : CacheState) (u : Url) : Option Resp :=
  match getPartition st DYNAMIC_CACHE with
  | some p => partitionMatch p u
  | none => none

/- Strategy result: the settled response promise, the cache store after
all writes, and the URLs the worker itself fetched. -/

structure StratResult where
  response : Except Unit (Option Resp)
  state : CacheState
  fetched : List Url
deriving Repr

/-- The synthetic offline response `new Response('Offline', \x7b status: 503 \x7d)`. -/
def offlineResponse : Resp := ⟨503, "Offline"⟩

/-- `networkFirst` (`sw.js` lines 70-80): try the network; on success put
a clone in the dynamic partition and return the fresh response; on
failure fall back to `caches.match(request)` and finally to the
synthetic 503 offline response. -/
def networkFirst (net : Net) (req : Request) (st : CacheState) : StratResult :=
  match net req.url with
  | some r => ⟨Except.ok (some r), cachePut st DYNAMIC_CACHE req.url r, [req.url]⟩
  | none =>
    match cachesMatch st req.url with
    | some c => ⟨Except.ok (some c), st, [req.url]⟩
    | none => ⟨Except.ok (some offlineResponse), st, [req.url]⟩

/-- The URL of the fallback placeholder image (`sw.js` line 99). -/
def placeholderUrl : Url := "/img/placeholder.jpg"

/-- `cacheFirst` (`sw.js` lines 85-103): serve `caches.match(request)`
when present; otherwise fetch, caching a clone in the dynamic partition
on success; on network failure return `caches.match('/img/placeholder.jpg')`
for image destinations (whatever that lookup yields, possibly absent)
and rethrow the error for every other destination. -/
def cacheFirst (net : Net) (req : Request) (st : CacheState) : StratResult :=
  match cachesMatch st req.url with
  | some c => ⟨Except.ok (some c), st, []⟩
  | none =>
    match net req.url with
    | some r => ⟨Except.ok (some r), cachePut st DYNAMIC_CACHE req.url r, [req.url]⟩
    | none =>
      if req.destination = "image" then
        ⟨Except.ok (cachesMatch st placeholderUrl), st, [req.url]⟩
      else
        ⟨Except.error (), st, [req.url]⟩

/-- `staleWhileRevalidate` (`sw.js` lines 108-118): open the dynamic
partition and match the request there only; always start a network
fetch whose success overwrites the dynamic entry; return the cached
response when present (without awaiting the fetch), else the fetch
promise itself. -/
def staleWhileRevalidate (net : Net) (req : Request) (st : CacheState) : StratResult :=
  let st1 := openCache st DYNAMIC_CACHE
  let cached := dynMatch st1 req.url
  let st2 :=
    match net req.url with
    | some r => cachePut st1 DYNAMIC_CACHE req.url r
    | none => st1
  match cached with
  | some c => ⟨Except.ok (some c), st2, [req.url]⟩
  | none =>
    match net req.url with
    | some r => ⟨Except.ok (some r), st2, [req.url]⟩
    | none => ⟨Except.error (), st2, [req.url]⟩

/- Strategy selector (the fetch listener, `sw.js` lines 48-65). -/

inductive Classification
  | API
  | IMAGE
  | OTHER
deriving DecidableEq, Repr

/-- Whether one character sequence starts with another. -/
def startsWithChars : List Char → List Char → Bool
  | [], _ => true
  | _ :: _, [] => false
  | p :: ps, c :: cs => p = c && startsWithChars ps cs

/-- Whether `pat` occurs as a contiguous subsequence. -/
def containsSeq (pat : List Char) : List Char → Bool
  | [] => startsWithChars pat []
  | c :: cs => startsWithChars pat (c :: cs) || containsSeq pat cs

/-- `request.url.includes('/api/')`: the marker occurs somewhere in the URL. -/
def urlHasApi (u : Url) : Bool :=
  containsSeq "/api/".toList u.toList

/-- Classification of a GET request by the fetch listener. -/
def classify (req : Request) : Classification :=
  if urlHasApi req.url then Classification.API
  else if req.destination = "image" then Classification.IMAGE
  else Classification.OTHER

/-- The fetch listener: non-GET requests are not intercepted (result
`none`, store untouched, no worker fetch); GET requests are dispatched
to the strategy chosen by `classify`. -/
def handleFetch (net : Net) (req : Request) (st : CacheState) :
    Option (Except Unit (Option Resp)) × CacheState × List Url :=
  if req.method = "GET" then
    let r :=
      match classify req with
      | Classification.API => networkFirst net req st
      | Classification.IMAGE => cacheFirst net req st
      | Classification.OTHER => staleWhileRevalidate net req st
    (some r.response, r.state, r.fetched)
  else
    (none, st, [])

/- Lifecycle manager (`sw.js` lines 24-45). -/

/-- `cache.addAll(files)`: atomic — all fetches must succeed or nothing
is committed (`none`). -/
def addAll (st : CacheState) (name : String) (files : List Url) (net : Net) :
    Option CacheState :=
  if files.all (fun f => (net f).isSome) then
    some (files.foldl
      (fun s f =>
        match net f with
        | some r => cachePut s name f r
        | none => s) st)
  else none

/-- Whether the install attempt succeeded, and the cache store after it:
`caches.open(STATIC_CACHE)` then `cache.addAll(files)`; a failed
`addAll` rejects the install and commits no entries. -/
structure InstallResult where
  success : Bool
  state : CacheState
deriving Repr

/-- The install listener body, parametrised by the manifest. -/
def installWith (files : List Url) (net : Net) (st : CacheState) : InstallResult :=
  let st1 := openCache st STATIC_CACHE
  match addAll st1 STATIC_CACHE files net with
  | some st2 => ⟨true, st2⟩
  | none => ⟨false, st1⟩

/-- The install listener with the worker's fixed manifest (`STATIC_FILES`). -/
def install (net : Net) (st : CacheState) : InstallResult :=
  installWith STATIC_FILES net st

/-- The activate listener (`sw.js` lines 33-45): delete every partition
whose name is neither the current static nor the current dynamic name. -/
def activate (st : CacheState) : CacheState :=
  st.filter (fun e => e.1 = STATIC_CACHE || e.1 = DYNAMIC_CACHE)

/-- The names the activate listener deletes from a given store. -/
def activateDeletions (st : CacheState) : List String :=
  (st.map (fun e => e.1)).filter (fun n => !(n = STATIC_CACHE || n = DYNAMIC_CACHE))

/- Deferred-submission manager (`sw.js` lines 127-142). -/

/-- Modelled from the spec: `getStoredRSVP` is called by `syncRSVP` but
is not defined anywhere in the repository; the spec says it reads the
single Pending Submission from persistent storage, yielding nothing
when none exists. -/
def getStoredRSVP (storage : Option String) : Option String :=
  storage

/-- Outcome of one `syncRSVP` run: the pending-submission slot after the
run, the POST calls made, and whether the handler raised an error. -/
structure SyncResult where
  storage : Option String
  posts : List Url
  errored : Bool
deriving DecidableEq, Repr

/-- `syncRSVP`: read the pending submission; if none, do nothing; if
present, POST it to `/api/rsvp`, clearing the slot on success and
swallowing (logging) the error on failure. -/
def syncRSVP (net : Net) (storage : Option String) : SyncResult :=
  match getStoredRSVP storage with
  | none => ⟨storage, [], false⟩
  | some _ =>
    match net "/api/rsvp" with
    | some _ => ⟨none, ["/api/rsvp"], false⟩
    | none => ⟨storage, ["/api/rsvp"], false⟩

end SW

/-! ## Cache-store lemmas -/

namespace SW

theorem getPartition_cons (m : String) (q : Partition) (rest : CacheState) (n : String) :
    getPartition ((m, q) :: rest) n = if m = n then some q else getPartition rest n := by
  by_cases h : m = n <;>
    simp [getPartition, List.find?_cons_of_pos, List.find?_cons_of_neg, h]

theorem partitionMatch_cons (v : Url) (s : Resp) (rest : Partition) (u : Url) :
    partitionMatch ((v, s) :: rest) u = if v = u then some s else partitionMatch rest u := by
  by_cases h : v = u <;>
    simp [partitionMatch, List.find?_cons_of_pos, List.find?_cons_of_neg, h]

theorem partitionMatch_putEntry (p : Partition) (u : Url) (r : Resp) :
    partitionMatch (putEntry p u r) u = some r := by
  simp [putEntry, partitionMatch_cons]

theorem getPartition_append_single (st : CacheState) (n : String) (p : Partition)
    (h : getPartition st n = none) :
    getPartition (st ++ [(n, p)]) n = some p := by
  induction st with
  | nil => simp [getPartition_cons]
  | cons a rest ih =>
    obtain ⟨m, q⟩ := a
    rw [getPartition_cons] at h
    by_cases hm : m = n
    · simp [hm] at h
    · rw [List.cons_append, getPartition_cons, if_neg hm]
      exact ih (by rwa [if_neg hm] at h)

theorem getPartition_openCache_self (st : CacheState) (n : String) :
    getPartition (openCache st n) n = some ((getPartition st n).getD []) := by
  unfold openCache
  cases h : getPartition st n with
  | some p => simp [h]
  | none => simp [h, getPartition_append_single st n [] h]

theorem openCache_of_isSome (st : CacheState) (n : String)
    (h : (getPartition st n).isSome) : openCache st n = st := by
  unfold openCache
  simp [h]

theorem getPartition_map_update (st : CacheState) (n : String) (u : Url) (r : Resp) :
    getPartition (st.map (fun e => if e.1 = n then (e.1, putEntry e.2 u r) else e)) n
      = (getPartition st n).map (fun p => putEntry p u r) := by
  induction st with
  | nil => rfl
  | cons a rest ih =>
    obtain ⟨m, q⟩ := a
    by_cases h : m = n
    · simp [h, getPartition_cons]
    · simp only [List.map_cons]
      rw [show ((if (m, q).1 = n then ((m, q).1, putEntry (m, q).2 u r) else (m, q))
            = (m, q)) from by simp [h]]
      rw [getPartition_cons, getPartition_cons, if_neg h, if_neg h, ih]

theorem getPartition_cachePut (st : CacheState) (n : String) (u : Url) (r : Resp) :
    getPartition (cachePut st n u r) n
      = some (putEntry ((getPartition st n).getD []) u r) := by
  unfold cachePut
  rw [getPartition_map_update, getPartition_openCache_self]
  rfl

theorem dynMatch_cachePut (st : CacheState) (u : Url) (r : Resp) :
    dynMatch (cachePut st DYNAMIC_CACHE u r) u = some r := by
  unfold dynMatch
  rw [getPartition_cachePut]
  exact partitionMatch_putEntry _ _ _

theorem dynMatch_openCache (st : CacheState) (u : Url) :
    dynMatch (openCache st DYNAMIC_CACHE) u = dynMatch st u := by
  unfold dynMatch
  rw [getPartition_openCache_self]
  cases h : getPartition st DYNAMIC_CACHE with
  | some p => simp [h]
  | none => simp [h, partitionMatch]

/-! ## Claim theorems -/

/-- Claim C1: for every GET request classified IMAGE whose descriptor has a
stored entry in the dynamic or the static partition (`caches.match` finds
one), the Cache-First strategy returns that stored entry, leaves the store
unchanged, and performs no network fetch. -/
theorem cacheFirst_cached_hit (net : Net) (req : Request) (st : CacheState) (c : Resp)
    (hm : req.method = "GET") (hc : classify req = Classification.IMAGE)
    (h : cachesMatch st req.url = some c) :
    handleFetch net req st = (some (Except.ok (some c)), st, []) := by
  unfold handleFetch
  rw [hm, if_pos rfl, hc]
  unfold cacheFirst
  rw [h]

/-- Claim C1 witness: a cached logo image is served from the static
partition with no fetch. -/
theorem cacheFirst_cached_hit_witness :
    handleFetch (fun _ => none) ⟨"GET", "/img/logo.png", "image"⟩
        [(STATIC_CACHE, [("/img/logo.png", ⟨200, "logo"⟩)])]
      = (some (Except.ok (some ⟨200, "logo"⟩)),
         [(STATIC_CACHE, [("/img/logo.png", ⟨200, "logo"⟩)])], []) :=
  cacheFirst_cached_hit _ _ _ _ rfl rfl rfl

/-- Claim C2 (code bug evaluation): after a fully successful install of the
worker's manifest, the placeholder URL `/img/placeholder.jpg` is not in any
partition (the manifest pre-caches `/img/hero-placeholder.jpg` instead), so
a failed image fetch for an uncached URL resolves with an absent value
(`Except.ok none`), not with a stored placeholder response as the spec
requires. -/
theorem cacheFirst_placeholder_absent :
    (install (fun u => some ⟨200, u⟩) []).success = true ∧
    cachesMatch (install (fun u => some ⟨200, u⟩) []).state placeholderUrl = none ∧
    (cacheFirst (fun _ => none) ⟨"GET", "/img/photo.jpg", "image"⟩
        (install (fun u => some ⟨200, u⟩) []).state).response = Except.ok none :=
  ⟨rfl, rfl, rfl⟩

/-- Claim C3 counterexample: with an entry for `/api/data` present only in
the static partition (dynamic lookup is `none`) and the network down, the
Network-First strategy returns that static entry — not the synthetic 503
offline response the claim demands. The fallback is `caches.match`, which
searches every partition, not only the dynamic one. -/
theorem networkFirst_static_fallback_counterexample :
    dynMatch [(STATIC_CACHE, [("/api/data", (⟨200, "cached"⟩ : Resp))]),
              (DYNAMIC_CACHE, [])] "/api/data" = none ∧
    (networkFirst (fun _ => none) ⟨"GET", "/api/data", ""⟩
        [(STATIC_CACHE, [("/api/data", ⟨200, "cached"⟩)]), (DYNAMIC_CACHE, [])]).response
      = Except.ok (some ⟨200, "cached"⟩) ∧
    (networkFirst (fun _ => none) ⟨"GET", "/api/data", ""⟩
        [(STATIC_CACHE, [("/api/data", ⟨200, "cached"⟩)]), (DYNAMIC_CACHE, [])]).response
      ≠ Except.ok (some offlineResponse) := by
  refine ⟨rfl, rfl, ?_⟩
  intro hEq
  rw [show (networkFirst (fun _ => none) ⟨"GET", "/api/data", ""⟩
        [(STATIC_CACHE, [("/api/data", ⟨200, "cached"⟩)]), (DYNAMIC_CACHE, [])]).response
      = Except.ok (some ⟨200, "cached"⟩) from rfl] at hEq
  simp [offlineResponse] at hEq

/-- Claim C3 amended: for every request classified API whose network fetch
fails, the Network-First strategy returns the entry found by `caches.match`
across all partitions (static included) when one exists, and otherwise the
synthetic 503 offline response; the store is left unchanged. -/
theorem networkFirst_failure_cache_fallback (net : Net) (req : Request) (st : CacheState)
    (hc : classify req = Classification.API) (h : net req.url = none) :
    (networkFirst net req st).response
      = Except.ok (some ((cachesMatch st req.url).getD offlineResponse)) ∧
    (networkFirst net req st).state = st := by
  unfold networkFirst
  rw [h]
  cases hm : cachesMatch st req.url <;> simp [hm]

/-- Claim C3 amended witness: no connectivity and an empty store yields the
synthetic 503 offline response. -/
theorem networkFirst_failure_cache_fallback_witness :
    (networkFirst (fun _ => none) ⟨"GET", "/api/data", ""⟩ []).response
      = Except.ok (some ((cachesMatch [] "/api/data").getD offlineResponse)) ∧
    (networkFirst (fun _ => none) ⟨"GET", "/api/data", ""⟩ []).state = [] :=
  networkFirst_failure_cache_fallback _ _ _ rfl rfl

/-- Claim C4: for every request classified API whose network fetch succeeds,
the Network-First strategy returns the fresh network response, and the
dynamic partition afterwards holds exactly that response for the
descriptor, overwriting any prior entry. -/
theorem networkFirst_success_refresh (net : Net) (req : Request) (st : CacheState) (r : Resp)
    (hc : classify req = Classification.API) (h : net req.url = some r) :
    (networkFirst net req st).response = Except.ok (some r) ∧
    dynMatch (networkFirst net req st).state req.url = some r := by
  unfold networkFirst
  rw [h]
  exact ⟨rfl, dynMatch_cachePut st req.url r⟩

/-- Claim C4 witness: a successful `/api/data` fetch overwrites the stale
dynamic entry with the fresh response. -/
theorem networkFirst_success_refresh_witness :
    (networkFirst (fun u => some ⟨200, u⟩) ⟨"GET", "/api/data", ""⟩
        [(DYNAMIC_CACHE, [("/api/data", ⟨200, "old"⟩)])]).response
      = Except.ok (some ⟨200, "/api/data"⟩) ∧
    dynMatch (networkFirst (fun u => some ⟨200, u⟩) ⟨"GET", "/api/data", ""⟩
        [(DYNAMIC_CACHE, [("/api/data", ⟨200, "old"⟩)])]).state "/api/data"
      = some ⟨200, "/api/data"⟩ :=
  networkFirst_success_refresh _ _ _ _ rfl rfl

/-- Claim C5: for every GET request classified OTHER whose descriptor has an
entry in the dynamic partition, the Stale-While-Revalidate strategy returns
that cached entry, and the returned value is the same for every network —
in particular it does not depend on the success or failure of the
concurrently triggered fetch. -/
theorem swr_cached_independent_of_network (req : Request) (st : CacheState) (c : Resp)
    (hc : classify req = Classification.OTHER)
    (h : dynMatch st req.url = some c) :
    ∀ net : Net, (staleWhileRevalidate net req st).response = Except.ok (some c) := by
  intro net
  have hsome : (getPartition st DYNAMIC_CACHE).isSome := by
    unfold dynMatch at h
    cases hg : getPartition st DYNAMIC_CACHE with
    | some p => rfl
    | none => rw [hg] at h; exact absurd h (by simp)
  unfold staleWhileRevalidate
  rw [openCache_of_isSome st DYNAMIC_CACHE hsome]
  simp only [h]

/-- Claim C5 witness: a cached page is served both when the background
fetch fails and when it succeeds with a different body. -/
theorem swr_cached_independent_of_network_witness :
    (staleWhileRevalidate (fun _ => none) ⟨"GET", "/page.html", "document"⟩
        [(DYNAMIC_CACHE, [("/page.html", ⟨200, "page"⟩)])]).response
      = Except.ok (some ⟨200, "page"⟩) ∧
    (staleWhileRevalidate (fun u => some ⟨201, u⟩) ⟨"GET", "/page.html", "document"⟩
        [(DYNAMIC_CACHE, [("/page.html", ⟨200, "page"⟩)])]).response
      = Except.ok (some ⟨200, "page"⟩) :=
  ⟨swr_cached_independent_of_network ⟨"GET", "/page.html", "document"⟩
      [(DYNAMIC_CACHE, [("/page.html", ⟨200, "page"⟩)])] ⟨200, "page"⟩ rfl rfl
      (fun _ => none),
   swr_cached_independent_of_network ⟨"GET", "/page.html", "document"⟩
      [(DYNAMIC_CACHE, [("/page.html", ⟨200, "page"⟩)])] ⟨200, "page"⟩ rfl rfl
      (fun u => some ⟨201, u⟩)⟩

/-- Claim C6: for every request whose method is not GET, the fetch listener
does not intercept: no strategy runs, the worker fetches nothing, and every
partition's contents are unchanged. -/
theorem non_get_passthrough (net : Net) (req : Request) (st : CacheState)
    (h : ¬ req.method = "GET") :
    handleFetch net req st = (none, st, []) := by
  unfold handleFetch
  rw [if_neg h]

/-- Claim C6 witness: a POST to `/api/rsvp` is not intercepted and the
dynamic partition keeps its prior entry. -/
theorem non_get_passthrough_witness :
    handleFetch (fun u => some ⟨200, u⟩) ⟨"POST", "/api/rsvp", ""⟩
        [(DYNAMIC_CACHE, [("/api/rsvp", ⟨200, "old"⟩)])]
      = (none, [(DYNAMIC_CACHE, [("/api/rsvp", ⟨200, "old"⟩)])], []) :=
  non_get_passthrough _ _ _ (by decide)

/-- Claim C7: activation is idempotent — running activate twice leaves
exactly the partitions kept by the first run (only the current static and
dynamic names), and the second run deletes nothing. -/
theorem activate_idempotent (st : CacheState) :
    activate (activate st) = activate st ∧ activateDeletions (activate st) = [] := by
  constructor
  · unfold activate
    rw [List.filter_filter]
    simp
  · unfold activateDeletions activate
    rw [List.filter_eq_nil_iff]
    intro n hn
    rw [List.mem_map] at hn
    obtain ⟨e, he, rfl⟩ := hn
    rw [List.mem_filter] at he
    simp [he.2]

/-- Claim C8: for every manifest, if fetching any manifest asset fails, the
install attempt fails (`success = false`) and the static partition gains no
entries — the resulting store is just the prior store with the static
partition opened empty when it was absent; atomic `addAll` commits nothing. -/
theorem install_failure_atomic (files : List Url) (net : Net) (st : CacheState) (f : Url)
    (hf : f ∈ files) (hn : net f = none) :
    (installWith files net st).success = false ∧
    (installWith files net st).state = openCache st STATIC_CACHE := by
  have hall : files.all (fun g => (net g).isSome) = false := by
    rw [Bool.eq_false_iff]
    intro hA
    rw [List.all_eq_true] at hA
    have hfA := hA f hf
    rw [hn] at hfA
    simp at hfA
  unfold installWith addAll
  rw [hall]
  exact ⟨rfl, rfl⟩

/-- Claim C8 witness: the spec scenario — manifest
`["/", "/index.html", "/logo.png"]` with the `/logo.png` fetch failing —
reports failure and commits no entries. -/
theorem install_failure_atomic_witness :
    (installWith ["/", "/index.html", "/logo.png"]
        (fun u => if u = "/logo.png" then none else some ⟨200, u⟩) []).success = false ∧
    (installWith ["/", "/index.html", "/logo.png"]
        (fun u => if u = "/logo.png" then none else some ⟨200, u⟩) []).state
      = openCache [] STATIC_CACHE :=
  install_failure_atomic _ _ _ "/logo.png" (by simp) rfl

/-- Claim C9: when the sync trigger fires with no Pending Submission in
persistent storage, the handler makes no network call, changes nothing, and
raises no error. -/
theorem syncRSVP_noop_when_empty (net : Net) :
    syncRSVP net none = ⟨none, [], false⟩ := rfl

/-- Claim C10: the Stale-While-Revalidate strategy consults only the dynamic
partition — for a GET request classified OTHER whose descriptor is cached
only in the static partition, that entry is never served: with the network
down the caller receives the network failure despite the pre-cached static
entry. -/
theorem swr_ignores_static (net : Net) (req : Request) (st : CacheState) (c : Resp)
    (hc : classify req = Classification.OTHER)
    (hstatic : cachesMatch st req.url = some c)
    (hdyn : dynMatch st req.url = none)
    (hnet : net req.url = none) :
    (staleWhileRevalidate net req st).response = Except.error () := by
  unfold staleWhileRevalidate
  simp only [dynMatch_openCache, hdyn, hnet]

/-- Claim C10 witness: `/index.html` pre-cached at install in the static
partition is not served by Stale-While-Revalidate; the offline fetch
rejects. -/
theorem swr_ignores_static_witness :
    (staleWhileRevalidate (fun _ => none) ⟨"GET", "/index.html", "document"⟩
        [(STATIC_CACHE, [("/index.html", ⟨200, "home"⟩)]), (DYNAMIC_CACHE, [])]).response
      = Except.error () :=
  swr_ignores_static _ _ _ (⟨200, "home"⟩ : Resp) rfl rfl rfl rfl

end SW
